import Mathlib

/-!
Shallow embedding of the zodaxios HTTP client (`src/index.ts`).

JavaScript optional / possibly-`undefined` object properties are modelled as
`Option` fields; JS truthiness tests on them are modelled explicitly
(`urlFalsy`, emptiness tests on strings).  The asynchronous pipeline of one
call is modelled as a pure staged function `runCall`; the transport (`fetch`)
is a parameter, and the list of transport invocations made by a call is part
of the result, as is the observable state of the caller-supplied config
object after the call (the source mutates it when the first argument is a
string).  Error hooks of interceptors are side-effect observers in the source
(they never change the outcome of a call), so they are carried but not run.
-/

namespace Zodaxios

/-- HTTP methods accepted by the client (src/index.ts, `RequestConfig.method`). -/
inductive Method
  | get | post | patch | put | delete
deriving DecidableEq, Repr

/-- The two response body read modes (src/index.ts, `responseType`). -/
inductive RespType
  | json | text
deriving DecidableEq, Repr

/-- A JavaScript value in body position: primitives, `null`, or a structured
object (string-valued fields suffice for the properties studied here).
`typeof body === 'object'` holds exactly for `obj` and `nul`; truthiness
fails for `nul`, `str ""`, `num 0` and `bool false`. -/
inductive JsBody
  | str (s : String)
  | num (n : Int)
  | bool (b : Bool)
  | nul
  | obj (fields : List (String × String))
deriving DecidableEq, Repr

/-- The structured error produced by a failed schema validation
(the `error` of a zod `safeParseAsync` failure): a message plus a
path-addressed issue list. -/
structure SchemaErr where
  message : String
  issues : List (List String × String)
deriving DecidableEq, Repr

/-- Result of `schema.safeParseAsync` (src/index.ts, `Schema`). -/
inductive SchemaResult (D : Type)
  | ok (data : D)
  | err (e : SchemaErr)

/-- The request configuration (src/index.ts, `RequestConfig`).  Every field is
optional in the source interface; `none` models an absent property.  The
schema validator receives the envelope's `data`, which may be absent. -/
structure RequestConfig (D : Type) where
  schema : Option (Option D → SchemaResult D) := none
  responseType : Option RespType := none
  url : Option String := none
  method : Option Method := none
  params : Option (List (String × String)) := none
  withCredentials : Option Bool := none
  baseURL : Option String := none
  headers : Option (List (String × String)) := none
  validateStatus : Option (Nat → Bool) := none

/-- Instance defaults (src/index.ts, `ConfigDefaults`). -/
structure ConfigDefaults where
  baseURL : Option String := none
  headers : Option (List (String × String)) := none

/-- One interceptor slot value (src/index.ts, `Interceptor.handlers` entries):
a fulfillment transformer plus an optional rejection observer.  The source
only ever calls the rejection observer for its side effects, so its behaviour
is irrelevant to outcomes and it is carried as a presence marker. -/
structure Handler (V : Type) where
  done : V → V
  error : Option Unit := none

/-- The interceptor registry (src/index.ts, `class Interceptor`): an ordered
list of slots, each live or nullified (`null` after `eject`). -/
structure Interceptor (V : Type) where
  handlers : List (Option (Handler V))

/-- Models `use(done, error?)` (src/index.ts): `handlers.push({done, error}) - 1`,
i.e. append a live slot and return its index. -/
def Interceptor.use (r : Interceptor V) (done : V → V) (error : Option Unit) :
    Interceptor V × Nat :=
  (⟨r.handlers ++ [some ⟨done, error⟩]⟩, r.handlers.length)

/-- Models `eject(id)` (src/index.ts): `handlers[id] = null`. -/
def Interceptor.eject (r : Interceptor V) (id : Nat) : Interceptor V :=
  ⟨r.handlers.set id none⟩

/-- Dispatch over the slot list as the source's `handlers.map` loops do:
visit slots in order, skip nullified ones, and fold each live slot's effect
into the running value by `step`. -/
def dispatchHandlers (step : V → Handler V → V) (hs : List (Option (Handler V)))
    (v : V) : V :=
  hs.foldl (fun acc oh => match oh with | some h => step acc h | none => acc) v

/-- First-some choice: models `{...low, ...high}` at the granularity of one
optional property (`high`'s value wins when present). -/
def orO : Option α → Option α → Option α
  | some a, _ => some a
  | none, b => b

/-- JS object-spread merge of two config objects, `{...c, ...r}`, field by
field (src/index.ts, the merge of an interceptor's result into `config`). -/
def mergeConfig (c r : RequestConfig D) : RequestConfig D :=
  { schema := orO r.schema c.schema
    responseType := orO r.responseType c.responseType
    url := orO r.url c.url
    method := orO r.method c.method
    params := orO r.params c.params
    withCredentials := orO r.withCredentials c.withCredentials
    baseURL := orO r.baseURL c.baseURL
    headers := orO r.headers c.headers
    validateStatus := orO r.validateStatus c.validateStatus }

/-- Models `config = {...defaults, ...config}` (src/index.ts): the defaults object
only carries `baseURL` and `headers`, each overridden by a present
call-site property. -/
def mergeWithDefaults (d : ConfigDefaults) (c : RequestConfig D) : RequestConfig D :=
  { c with baseURL := orO c.baseURL d.baseURL
           headers := orO c.headers d.headers }

/-- The overload normalisation (src/index.ts): a string first argument is
written into the (possibly fresh) second-argument config as `url`; otherwise
the first argument is the config. -/
def normalizeArg (arg : Sum String (RequestConfig D)) (cfg : Option (RequestConfig D)) :
    RequestConfig D :=
  match arg with
  | Sum.inl u =>
    match cfg with
    | some c => { c with url := some u }
    | none => { url := some u }
  | Sum.inr c => c

/-- The observable state of the caller-supplied second-argument config object
after the call: `config.url = configOrUrl` (src/index.ts) mutates it when the
first argument is a string and the caller actually passed an object; in every
other case the caller's object is untouched. -/
def callerCfgAfter (arg : Sum String (RequestConfig D)) (cfg : Option (RequestConfig D)) :
    Option (RequestConfig D) :=
  match arg, cfg with
  | Sum.inl u, some c => some { c with url := some u }
  | _, cfg => cfg

/-- JS falsiness of the optional `url` string: absent or empty
(src/index.ts, `if (!config.url)`). -/
def urlFalsy : Option String → Bool
  | none => true
  | some s => decide (s = "")

/-- Whether a character list contains two consecutive slashes; this is what
the lookahead `(?!.*\x2f\x2f)` of the base-URL regex tests. -/
def hasDS : List Char → Bool
  | [] => false
  | [_] => false
  | a :: b :: rest => (decide (a = '/') && decide (b = '/')) || hasDS (b :: rest)

/-- Drop one leading slash if present (the `\x2f?` part of the regex). -/
def dropSlashL : List Char → List Char
  | [] => []
  | a :: rest => if a = '/' then rest else a :: rest

/-- String wrapper for `hasDS`. -/
def hasDoubleSlash (s : String) : Bool := hasDS s.data

/-- String wrapper for `dropSlashL`. -/
def dropLeadSlash (s : String) : String := String.mk (dropSlashL s.data)

/-- Models `url.replace(re, baseURL + '/')` where `re` anchors at the start, fails
when the url contains `//` anywhere, and consumes an optional leading slash
(src/index.ts, the base-URL composition). -/
def composeURL (b u : String) : String :=
  if hasDoubleSlash u then u else b ++ "/" ++ dropLeadSlash u

/-- Models `if (config.baseURL) config.url = (config.url || '').replace(...)`
(src/index.ts): a present, non-empty (truthy) baseURL rewrites the url. -/
def applyBase (c : RequestConfig D) : RequestConfig D :=
  match c.baseURL with
  | some b => if b = "" then c else { c with url := some (composeURL b (c.url.getD "")) }
  | none => c

/-- Hex digit (uppercase) for percent-encoding. -/
def hexDigit (n : Nat) : Char :=
  Char.ofNat (if n < 10 then 48 + n else 55 + n)

/-- UTF-8 bytes of a character, for percent-encoding. -/
def utf8Bytes (c : Char) : List Nat :=
  let n := c.toNat
  if n < 128 then [n]
  else if n < 2048 then [192 + n / 64, 128 + n % 64]
  else if n < 65536 then [224 + n / 4096, 128 + n / 64 % 64, 128 + n % 64]
  else [240 + n / 262144, 128 + n / 4096 % 64, 128 + n / 64 % 64, 128 + n % 64]

/-- Characters `application/x-www-form-urlencoded` serialisation leaves as-is. -/
def isFormSafe (c : Char) : Bool :=
  c.isAlphanum || decide (c = '*') || decide (c = '-') || decide (c = '.') || decide (c = '_')

/-- Form-serialise one character as `URLSearchParams` does. -/
def encodeFormChar (c : Char) : String :=
  if isFormSafe c then String.singleton c
  else if c = ' ' then "+"
  else String.join ((utf8Bytes c).map
    (fun b => "%" ++ String.singleton (hexDigit (b / 16)) ++ String.singleton (hexDigit (b % 16))))

/-- Form-serialise a string. -/
def encodeForm (s : String) : String :=
  String.join (s.data.map encodeFormChar)

/-- Models `String(new URLSearchParams(params))`: `k=v` pairs joined by `&`. -/
def encodeParams (ps : List (String × String)) : String :=
  String.intercalate "&" (ps.map (fun p => encodeForm p.1 ++ "=" ++ encodeForm p.2))

/-- Models `config.url += (url.indexOf('?') === -1 ? '?' : '&') + new URLSearchParams(params)`
(src/index.ts). -/
def appendQuery (u : String) (ps : List (String × String)) : String :=
  u ++ (if u.data.contains '?' then "&" else "?") ++ encodeParams ps

/-- Models `if (config.params)` (src/index.ts): a present params object (even empty)
gets appended to the url. -/
def applyParams (c : RequestConfig D) : RequestConfig D :=
  match c.params with
  | some ps => { c with url := some (appendQuery (c.url.getD "") ps) }
  | none => c

/-- Minimal JSON string quoting as used by `JSON.stringify` on the
string-valued objects modelled here. -/
def jsonQuote (s : String) : String :=
  "\"" ++ String.join (s.data.map (fun c =>
    if c = '"' then "\\\"" else if c = '\\' then "\\\\" else String.singleton c)) ++ "\""

/-- Models `JSON.stringify` of a flat string-valued object. -/
def jsonStringify (o : List (String × String)) : String :=
  "\x7b" ++ String.intercalate ","
    (o.map (fun p => jsonQuote p.1 ++ ":" ++ jsonQuote p.2)) ++ "\x7d"

/-- Models `if (body && typeof body === 'object')` (src/index.ts): a truthy
object-typed body is JSON-serialised and the local header object gains
`content-type: application/json`; anything else passes through with no
serialisation headers. -/
def serializeBody : Option JsBody → Option JsBody × List (String × String)
  | some (JsBody.obj o) => (some (JsBody.str (jsonStringify o)), [("content-type", "application/json")])
  | b => (b, [])

/-- One JS property write `acc[k] = v` on an object represented as an assoc
list with unique keys: replace in place when the key exists, else append. -/
def setKey : List (String × String) → String → String → List (String × String)
  | [], k, v => [(k, v)]
  | (k', v') :: rest, k, v =>
    if k' = k then (k, v) :: rest else (k', v') :: setKey rest k v

/-- JS object spread `{...a, ...b}` on header objects: every property of `b`
written over `a` in order. -/
def spreadMerge (a b : List (String × String)) : List (String × String) :=
  b.foldl (fun acc p => setKey acc p.1 p.2) a

/-- The parameters handed to `fetch` (src/index.ts, the `fetch(config.url, {...})`
call). -/
structure FetchArgs where
  url : String
  method : Option Method
  body : Option JsBody
  headers : List (String × String)
  credentials : Option String
deriving DecidableEq, Repr

/-- The transport's response: status, headers, and the two body readers
(`res.json()` / `res.text()`), each possibly throwing (`Except.error`). -/
structure FetchRes (D : Type) where
  status : Nat
  headers : List (String × String)
  jsonBody : Except Unit D
  textBody : Except Unit D

/-- Models `res.ok` as the Fetch standard defines it: status in the inclusive range
200–299. -/
def FetchRes.isOk (r : FetchRes D) : Bool :=
  decide (200 ≤ r.status) && decide (r.status < 300)

/-- Models `await res[responseType]()`. -/
def readBody (r : FetchRes D) : RespType → Except Unit D
  | RespType.json => r.jsonBody
  | RespType.text => r.textBody

/-- The response envelope (src/index.ts, the `response` object). -/
structure ResponseEnv (D : Type) where
  config : RequestConfig D
  headers : List (String × String)
  status : Nat
  data : Option D

/-- The schema-validation error thrown by the pipeline
(src/index.ts, `class ZodaxiosError`). -/
structure ZodaxiosError (D : Type) where
  message : String
  config : RequestConfig D
  data : Option D
  cause : SchemaErr

/-- The ways one call can reject. -/
inductive CallFailure (D : Type)
  | missingUrl (message : String)
  | statusError (response : ResponseEnv D)
  | schemaError (e : ZodaxiosError D)

/-- Everything one call reads: instance defaults, the two interceptor handler
lists, the positional arguments, and the transport. -/
structure CallInput (D : Type) where
  defaults : ConfigDefaults
  reqHandlers : List (Option (Handler (RequestConfig D)))
  respHandlers : List (Option (Handler (ResponseEnv D)))
  arg : Sum String (RequestConfig D)
  config : Option (RequestConfig D)
  method : Option Method
  body : Option JsBody
  transport : FetchArgs → FetchRes D

/-- Everything one call produces: the transport invocations it made, its
outcome, and the caller's second-argument config object as left behind. -/
structure CallResult (D : Type) where
  calls : List FetchArgs
  outcome : Except (CallFailure D) (ResponseEnv D)
  callerConfigAfter : Option (RequestConfig D)

/-- The message of the missing-URL usage error (src/index.ts). -/
def missingUrlMessage : String := "Missing URL. Please see documentation on usage."

/-- Request-phase dispatch (src/index.ts, the `interceptors.request.handlers.map`
loop): each live handler's result is spread-merged into the running config. -/
def applyReqHandlers (hs : List (Option (Handler (RequestConfig D))))
    (c : RequestConfig D) : RequestConfig D :=
  dispatchHandlers (fun c h => mergeConfig c (h.done c)) hs c

/-- Response-phase dispatch (src/index.ts, the success-path
`interceptors.response.handlers.map` loop): each live handler replaces the
running envelope. -/
def applyRespHandlers (hs : List (Option (Handler (ResponseEnv D))))
    (e : ResponseEnv D) : ResponseEnv D :=
  dispatchHandlers (fun e h => h.done e) hs e

/-- The merged configuration: overload normalisation, then
`{...defaults, ...config}` (src/index.ts). -/
def resolvedConfig (i : CallInput D) : RequestConfig D :=
  mergeWithDefaults i.defaults (normalizeArg i.arg i.config)

/-- Models `const responseType = config.responseType || 'json'` — read from the
merged config before interceptors run (src/index.ts). -/
def effRespType (i : CallInput D) : RespType :=
  (resolvedConfig i).responseType.getD RespType.json

/-- The fully resolved descriptor: post-merge, post request interceptors,
post base-URL and query composition (src/index.ts). -/
def finalConfig (i : CallInput D) : RequestConfig D :=
  applyParams (applyBase (applyReqHandlers i.reqHandlers (resolvedConfig i)))

/-- The body actually handed to the transport (post serialisation). -/
def sentBody (i : CallInput D) : Option JsBody :=
  (serializeBody i.body).1

/-- Models `{...config.headers, ...headers}` (src/index.ts): the serialisation
headers written over the resolved config's headers. -/
def builtHeaders (i : CallInput D) : List (String × String) :=
  spreadMerge ((finalConfig i).headers.getD []) (serializeBody i.body).2

/-- The full parameter set of the one `fetch` call. -/
def builtArgs (i : CallInput D) : FetchArgs :=
  { url := (finalConfig i).url.getD ""
    method := i.method
    body := sentBody i
    headers := builtHeaders i
    credentials := if (finalConfig i).withCredentials.getD false then some "include" else none }

/-- The transport's response for this call. -/
def transportRes (i : CallInput D) : FetchRes D :=
  i.transport (builtArgs i)

/-- Status classification (src/index.ts): `config.validateStatus` from the
resolved descriptor when supplied, else `res.ok`. -/
def classified (i : CallInput D) : Bool :=
  match (finalConfig i).validateStatus with
  | some p => p (transportRes i).status
  | none => (transportRes i).isOk

/-- The envelope carried by a status rejection: built before any body read,
so `data` is absent (src/index.ts, the `response` object at `!ok`). -/
def failEnv (i : CallInput D) : ResponseEnv D :=
  { config := finalConfig i
    headers := (transportRes i).headers
    status := (transportRes i).status
    data := none }

/-- The envelope after the best-effort body read
(`try { response.data = await res[responseType]() } catch {}`). -/
def preRespEnv (i : CallInput D) : ResponseEnv D :=
  { failEnv i with data := (readBody (transportRes i) (effRespType i)).toOption }

/-- The envelope after the response interceptors ran. -/
def interceptedEnv (i : CallInput D) : ResponseEnv D :=
  applyRespHandlers i.respHandlers (preRespEnv i)

/-- The schema-validation stage (src/index.ts): runs only under the
early-bound `json` response type with a schema present on the resolved
descriptor; failure throws a `ZodaxiosError`, success replaces `data`. -/
def schemaStage (i : CallInput D) : Except (CallFailure D) (ResponseEnv D) :=
  match effRespType i, (finalConfig i).schema with
  | RespType.json, some s =>
    match s (interceptedEnv i).data with
    | SchemaResult.err e =>
      Except.error (CallFailure.schemaError
        ⟨e.message, finalConfig i, (interceptedEnv i).data, e⟩)
    | SchemaResult.ok d => Except.ok { interceptedEnv i with data := some d }
  | _, _ => Except.ok (interceptedEnv i)

/-- The outcome of one call (src/index.ts, lines 108–216). -/
def outcomeOf (i : CallInput D) : Except (CallFailure D) (ResponseEnv D) :=
  if urlFalsy (resolvedConfig i).url then Except.error (CallFailure.missingUrl missingUrlMessage)
  else if classified i then schemaStage i
  else Except.error (CallFailure.statusError (failEnv i))

/-- The transport invocations one call makes: none when the missing-URL guard
fires, exactly one otherwise. -/
def callsMade (i : CallInput D) : List FetchArgs :=
  if urlFalsy (resolvedConfig i).url then [] else [builtArgs i]

/-- One whole call. -/
def runCall (i : CallInput D) : CallResult D :=
  { calls := callsMade i
    outcome := outcomeOf i
    callerConfigAfter := callerCfgAfter i.arg i.config }

/-! ## Helper lemmas -/

/-- Setting the element just past an initial segment rewrites exactly that slot. -/
theorem set_length_append (pre : List α) (x y : α) (post : List α) :
    (pre ++ x :: post).set pre.length y = pre ++ y :: post := by
  induction pre with
  | nil => rfl
  | cons a t ih => simp [List.set, ih]

/-- A nullified slot contributes nothing to handler dispatch. -/
theorem dispatch_skip_none (step : V → Handler V → V)
    (pre post : List (Option (Handler V))) (v : V) :
    dispatchHandlers step (pre ++ none :: post) v = dispatchHandlers step (pre ++ post) v := by
  simp [dispatchHandlers, List.foldl_append]

/-- A list with no double slash keeps that property after its first element. -/
theorem hasDS_tail {a : Char} {l : List Char} (h : hasDS (a :: l) = false) :
    hasDS l = false := by
  cases l with
  | nil => rfl
  | cons b t =>
    simp only [hasDS, Bool.or_eq_false_iff] at h
    exact h.2

/-- After a leading slash of a double-slash-free list, the next character is
not a slash. -/
theorem head_ne_slash {b : Char} {t : List Char} (h : hasDS ('/' :: b :: t) = false) :
    b ≠ '/' := by
  simp only [hasDS, Bool.or_eq_false_iff, Bool.and_eq_false_iff,
    decide_eq_false_iff_not] at h
  rcases h.1 with h1 | h1
  · exact absurd trivial h1
  · exact h1

/-- Dropping the leading slash preserves double-slash-freeness. -/
theorem dropSlashL_hasDS {l : List Char} (h : hasDS l = false) :
    hasDS (dropSlashL l) = false := by
  cases l with
  | nil => rfl
  | cons a t =>
    by_cases ha : a = '/'
    · subst ha
      simp only [dropSlashL, if_pos rfl]
      exact hasDS_tail h
    · simpa only [dropSlashL, if_neg ha] using h

/-- On a double-slash-free list, dropping the leading slash is idempotent. -/
theorem dropSlashL_idem {l : List Char} (h : hasDS l = false) :
    dropSlashL (dropSlashL l) = dropSlashL l := by
  cases l with
  | nil => rfl
  | cons a t =>
    by_cases ha : a = '/'
    · subst ha
      simp only [dropSlashL, if_pos rfl]
      cases t with
      | nil => rfl
      | cons b t' =>
        have hb := head_ne_slash h
        simp [dropSlashL, hb]
    · simp [dropSlashL, ha]

/-- Re-attaching a single leading slash to a slash-dropped double-slash-free
list introduces no double slash. -/
theorem hasDS_slash_drop {l : List Char} (h : hasDS l = false) :
    hasDS ('/' :: dropSlashL l) = false := by
  cases l with
  | nil => rfl
  | cons a t =>
    by_cases ha : a = '/'
    · subst ha
      simp only [dropSlashL, if_pos rfl]
      cases t with
      | nil => rfl
      | cons b t' =>
        have hb := head_ne_slash h
        have ht := hasDS_tail h
        simp only [hasDS, Bool.or_eq_false_iff, Bool.and_eq_false_iff,
          decide_eq_false_iff_not]
        exact ⟨Or.inr hb, ht⟩
    · have hd : dropSlashL (a :: t) = a :: t := by simp [dropSlashL, ha]
      rw [hd]
      simp only [hasDS, Bool.or_eq_false_iff, Bool.and_eq_false_iff,
        decide_eq_false_iff_not]
      exact ⟨Or.inr ha, h⟩

/-! ## Claims -/

/-- Claim C1: for every call where the merged configuration's url is empty or
absent after merging instance defaults with call-site config, the call fails
with the thrown `Missing URL` usage error and the transport is never invoked
for that call. -/
theorem claim_C1 {D : Type} (i : CallInput D)
    (h : urlFalsy (resolvedConfig i).url = true) :
    (runCall i).calls = [] ∧
    (runCall i).outcome = Except.error (CallFailure.missingUrl missingUrlMessage) := by
  refine ⟨?_, ?_⟩ <;> simp [runCall, callsMade, outcomeOf, h]

/-- A call whose merged config carries no url at all. -/
def exInputC1 : CallInput Nat :=
  { defaults := {}
    reqHandlers := []
    respHandlers := []
    arg := Sum.inr {}
    config := none
    method := some Method.get
    body := none
    transport := fun _ => { status := 200, headers := [], jsonBody := Except.ok 0, textBody := Except.ok 0 } }

/-- Claim C1 witness at a concrete call with an absent url. -/
theorem claim_C1_witness :
    urlFalsy (resolvedConfig exInputC1).url = true ∧
    ((runCall exInputC1).calls = [] ∧
     (runCall exInputC1).outcome = Except.error (CallFailure.missingUrl missingUrlMessage)) :=
  ⟨rfl, claim_C1 exInputC1 rfl⟩

/-- A call whose instance defaults carry a header key the call-site config
does not override, while the call-site config supplies its own headers map. -/
def exInputC5 : CallInput Nat :=
  { defaults := { headers := some [("a", "1")] }
    reqHandlers := []
    respHandlers := []
    arg := Sum.inl "/x"
    config := some { headers := some [("b", "2")] }
    method := some Method.get
    body := none
    transport := fun _ => { status := 200, headers := [], jsonBody := Except.ok 0, textBody := Except.ok 0 } }

/-- Claim C5 counterexample: the instance default header `a: 1` has a key the
call-site config never overrides (the call-site headers only carry `b`), yet
it is absent both from the merged configuration's headers and from the
headers actually sent: the call-site headers map replaces the defaults'
headers wholesale rather than merging per key. -/
theorem claim_C5_counterexample :
    List.lookup "a" ((exInputC5.defaults.headers).getD []) = some "1" ∧
    (resolvedConfig exInputC5).headers = some [("b", "2")] ∧
    builtHeaders exInputC5 = [("b", "2")] ∧
    List.lookup "a" (builtHeaders exInputC5) = none := by
  refine ⟨rfl, rfl, rfl, rfl⟩

/-- Claim C5 (amended): configuration merging gives call-site config
precedence over instance defaults per top-level key; the headers map is one
such key, so the defaults' header entries are retained exactly when the
call-site config supplies no headers map of its own, and are replaced
wholesale (not merged per header key) when it does. -/
theorem claim_C5_amended {D : Type} (d : ConfigDefaults) (c : RequestConfig D) :
    (mergeWithDefaults d c).headers = orO c.headers d.headers ∧
    (mergeWithDefaults d c).baseURL = orO c.baseURL d.baseURL ∧
    (mergeWithDefaults d c).url = c.url ∧
    (mergeWithDefaults d c).schema = c.schema ∧
    (mergeWithDefaults d c).responseType = c.responseType ∧
    (mergeWithDefaults d c).params = c.params ∧
    (mergeWithDefaults d c).withCredentials = c.withCredentials ∧
    (mergeWithDefaults d c).validateStatus = c.validateStatus ∧
    orO (none : Option (List (String × String))) d.headers = d.headers ∧
    (∀ hs : List (String × String), orO (some hs) d.headers = some hs) :=
  ⟨rfl, rfl, rfl, rfl, rfl, rfl, rfl, rfl, rfl, fun _ => rfl⟩

/-- Claim C7: `use` appends a slot and returns the stable index of that slot;
`eject` nullifies exactly that slot, shifting no other slot, so the ejected
handler's transformation never runs on subsequent dispatches; ejecting the
same handle again is a no-op that affects no other handler. -/
theorem claim_C7 {V : Type} (step : V → Handler V → V) (r : Interceptor V)
    (f : V → V) (e : Option Unit) (pre post : List (Option (Handler V)))
    (h : Handler V) (j : Nat) (v : V)
    (hr : r.handlers = pre ++ some h :: post) (hj : pre.length ≠ j) :
    (r.use f e).2 = r.handlers.length ∧
    (r.use f e).1.handlers = r.handlers ++ [some ⟨f, e⟩] ∧
    (r.eject pre.length).handlers = pre ++ none :: post ∧
    (r.eject pre.length).handlers.length = r.handlers.length ∧
    (r.eject pre.length).handlers[j]? = r.handlers[j]? ∧
    dispatchHandlers step (r.eject pre.length).handlers v
      = dispatchHandlers step (pre ++ post) v ∧
    (r.eject pre.length).eject pre.length = r.eject pre.length := by
  have h3 : (r.eject pre.length).handlers = pre ++ none :: post := by
    simp [Interceptor.eject, hr, set_length_append]
  refine ⟨rfl, rfl, h3, ?_, ?_, ?_, ?_⟩
  · rw [h3, hr]; simp
  · simp [Interceptor.eject, List.getElem?_set_ne hj]
  · rw [h3, dispatch_skip_none]
  · simp [Interceptor.eject, List.set_set]

/-- A two-slot registry on `Nat` values. -/
def exRegC7 : Interceptor Nat := ⟨[some ⟨fun n => n + 1, none⟩, some ⟨fun n => n * 2, none⟩]⟩

/-- Claim C7 witness at a concrete registry: eject the second slot
(index 1) and dispatch with plain function application. -/
theorem claim_C7_witness :
    (exRegC7.use (fun n => n + 3) none).2 = exRegC7.handlers.length ∧
    (exRegC7.use (fun n => n + 3) none).1.handlers
      = exRegC7.handlers ++ [some ⟨fun n => n + 3, none⟩] ∧
    (exRegC7.eject 1).handlers = [some ⟨fun n => n + 1, none⟩] ++ none :: [] ∧
    (exRegC7.eject 1).handlers.length = exRegC7.handlers.length ∧
    (exRegC7.eject 1).handlers[0]? = exRegC7.handlers[0]? ∧
    dispatchHandlers (fun acc hh => hh.done acc) (exRegC7.eject 1).handlers 5
      = dispatchHandlers (fun acc hh => hh.done acc) ([some ⟨fun n => n + 1, none⟩] ++ []) 5 ∧
    (exRegC7.eject 1).eject 1 = exRegC7.eject 1 :=
  claim_C7 (fun acc hh => hh.done acc) exRegC7 (fun n => n + 3) none
    [some ⟨fun n => n + 1, none⟩] [] ⟨fun n => n * 2, none⟩ 0 5 rfl (by decide)

/-- Claim C10: calling with a string first argument and a caller-supplied
config object writes the url into that very object, so the caller's config is
observably mutated whenever its url differed. -/
theorem claim_C10 {D : Type} (i : CallInput D) (s : String) (c : RequestConfig D)
    (ha : i.arg = Sum.inl s) (hc : i.config = some c) (hne : c.url ≠ some s) :
    (runCall i).callerConfigAfter = some { c with url := some s } ∧
    (runCall i).callerConfigAfter ≠ i.config := by
  have h1 : (runCall i).callerConfigAfter = some { c with url := some s } := by
    simp [runCall, callerCfgAfter, ha, hc]
  refine ⟨h1, ?_⟩
  intro hcontra
  rw [h1, hc] at hcontra
  have h2 := congrArg RequestConfig.url (Option.some.inj hcontra)
  exact hne h2.symm

/-- Claim C2: under the default/selected `json` response type with a schema
supplied, a validator failure rejects the call with a `ZodaxiosError` built
from the validator's message, the resolved descriptor, the pre-validation
data and the validator's structured error as cause — even though the status
was classified as success; a validator success replaces the envelope's data
with the coerced value. -/
theorem claim_C2 {D : Type} (i : CallInput D) (s : Option D → SchemaResult D)
    (e : SchemaErr) (d : D)
    (hurl : urlFalsy (resolvedConfig i).url = false)
    (hrt : effRespType i = RespType.json)
    (hs : (finalConfig i).schema = some s)
    (hok : classified i = true) :
    (s (interceptedEnv i).data = SchemaResult.err e →
      (runCall i).outcome = Except.error (CallFailure.schemaError
        ⟨e.message, finalConfig i, (interceptedEnv i).data, e⟩)) ∧
    (s (interceptedEnv i).data = SchemaResult.ok d →
      (runCall i).outcome = Except.ok { interceptedEnv i with data := some d }) ∧
    (runCall i).calls = [builtArgs i] := by
  refine ⟨?_, ?_, ?_⟩
  · intro hres
    simp [runCall, outcomeOf, hurl, hok, schemaStage, hrt, hs, hres]
  · intro hres
    simp [runCall, outcomeOf, hurl, hok, schemaStage, hrt, hs, hres]
  · simp [runCall, callsMade, hurl]

/-- A validator that always fails with a path-addressed issue. -/
def schemaFailC2 : Option Nat → SchemaResult Nat :=
  fun _ => SchemaResult.err ⟨"boom", [(["name"], "bad")]⟩

/-- A validator that always succeeds with the coerced value 9. -/
def schemaOkC2 : Option Nat → SchemaResult Nat :=
  fun _ => SchemaResult.ok 9

/-- A 200-status call whose schema rejects the body. -/
def exInputC2fail : CallInput Nat :=
  { defaults := {}
    reqHandlers := []
    respHandlers := []
    arg := Sum.inl "/api"
    config := some { schema := some schemaFailC2 }
    method := some Method.get
    body := none
    transport := fun _ => { status := 200, headers := [], jsonBody := Except.ok 7, textBody := Except.ok 7 } }

/-- A 200-status call whose schema coerces the body to 9. -/
def exInputC2ok : CallInput Nat :=
  { defaults := {}
    reqHandlers := []
    respHandlers := []
    arg := Sum.inl "/api"
    config := some { schema := some schemaOkC2 }
    method := some Method.get
    body := none
    transport := fun _ => { status := 200, headers := [], jsonBody := Except.ok 7, textBody := Except.ok 7 } }

/-- Claim C2 witness: concrete failing and succeeding validations on
classified-success responses. -/
theorem claim_C2_witness :
    (runCall exInputC2fail).outcome = Except.error (CallFailure.schemaError
      ⟨"boom", finalConfig exInputC2fail, (interceptedEnv exInputC2fail).data,
        ⟨"boom", [(["name"], "bad")]⟩⟩) ∧
    (runCall exInputC2ok).outcome
      = Except.ok { interceptedEnv exInputC2ok with data := some 9 } ∧
    (runCall exInputC2fail).calls = [builtArgs exInputC2fail] :=
  ⟨(claim_C2 exInputC2fail schemaFailC2 ⟨"boom", [(["name"], "bad")]⟩ 0 rfl rfl rfl rfl).1 rfl,
    (claim_C2 exInputC2ok schemaOkC2 ⟨"x", []⟩ 9 rfl rfl rfl rfl).2.1 rfl,
    (claim_C2 exInputC2fail schemaFailC2 ⟨"boom", [(["name"], "bad")]⟩ 0 rfl rfl rfl rfl).2.2⟩

/-- Claim C3: with no `validateStatus` supplied the response is classified as
success exactly when the status is in the inclusive range 200–299; every
response failing classification rejects with an envelope whose status is the
transport-reported status and whose config is the fully resolved
descriptor. -/
theorem claim_C3 {D : Type} (i : CallInput D)
    (hurl : urlFalsy (resolvedConfig i).url = false) :
    ((finalConfig i).validateStatus = none →
      (classified i = true ↔
        (200 ≤ (transportRes i).status ∧ (transportRes i).status ≤ 299))) ∧
    (classified i = false →
      (runCall i).outcome = Except.error (CallFailure.statusError (failEnv i)) ∧
      (failEnv i).status = (transportRes i).status ∧
      (failEnv i).config = finalConfig i ∧
      (runCall i).calls = [builtArgs i]) := by
  constructor
  · intro hvs
    simp only [classified, hvs, FetchRes.isOk, Bool.and_eq_true, decide_eq_true_eq]
    omega
  · intro hcl
    refine ⟨?_, rfl, rfl, ?_⟩
    · simp [runCall, outcomeOf, hurl, hcl]
    · simp [runCall, callsMade, hurl]

/-- A call whose transport reports a 404. -/
def exInputC3 : CallInput Nat :=
  { defaults := {}
    reqHandlers := []
    respHandlers := []
    arg := Sum.inl "/api"
    config := none
    method := some Method.get
    body := none
    transport := fun _ => { status := 404, headers := [], jsonBody := Except.ok 0, textBody := Except.ok 0 } }

/-- Claim C3 witness at a concrete 404 response under the default
classification. -/
theorem claim_C3_witness :
    (classified exInputC3 = true ↔
      (200 ≤ (transportRes exInputC3).status ∧ (transportRes exInputC3).status ≤ 299)) ∧
    ((runCall exInputC3).outcome = Except.error (CallFailure.statusError (failEnv exInputC3)) ∧
      (failEnv exInputC3).status = (transportRes exInputC3).status ∧
      (failEnv exInputC3).config = finalConfig exInputC3 ∧
      (runCall exInputC3).calls = [builtArgs exInputC3]) :=
  ⟨(claim_C3 exInputC3 rfl).1 rfl, (claim_C3 exInputC3 rfl).2 rfl⟩

/-- Claim C4: with a (truthy) baseURL set, a url already containing `//` is
left unchanged and the baseURL ignored; otherwise the final url is the
baseURL joined to the url with a single inserted slash, with the url's own
leading slash (if any) collapsed, so that a url with and without a leading
slash compose to the same final url. -/
theorem claim_C4 {D : Type} (c : RequestConfig D) (b u : String)
    (hb : c.baseURL = some b) (hbne : b ≠ "") (hu : c.url = some u) :
    (applyBase c).url = some (composeURL b u) ∧
    (hasDoubleSlash u = true → composeURL b u = u) ∧
    (hasDoubleSlash u = false →
      composeURL b u = b ++ "/" ++ dropLeadSlash u ∧
      composeURL b (dropLeadSlash u) = b ++ "/" ++ dropLeadSlash u ∧
      composeURL b ("/" ++ dropLeadSlash u) = b ++ "/" ++ dropLeadSlash u) := by
  refine ⟨?_, ?_, ?_⟩
  · simp [applyBase, hb, hu, hbne]
  · intro h
    simp [composeURL, h]
  · intro h
    have hD : hasDS u.data = false := h
    refine ⟨by simp [composeURL, h], ?_, ?_⟩
    · have h1 : hasDoubleSlash (dropLeadSlash u) = false := dropSlashL_hasDS hD
      have h2 : dropLeadSlash (dropLeadSlash u) = dropLeadSlash u := by
        show String.mk (dropSlashL (dropSlashL u.data)) = String.mk (dropSlashL u.data)
        rw [dropSlashL_idem hD]
      simp [composeURL, h1, h2]
    · have hdata : ("/" ++ dropLeadSlash u).data = '/' :: dropSlashL u.data := by
        rw [String.data_append]; rfl
      have h3 : hasDoubleSlash ("/" ++ dropLeadSlash u) = false := by
        show hasDS ("/" ++ dropLeadSlash u).data = false
        rw [hdata]
        exact hasDS_slash_drop hD
      have h4 : dropLeadSlash ("/" ++ dropLeadSlash u) = dropLeadSlash u := by
        show String.mk (dropSlashL ("/" ++ dropLeadSlash u).data) = dropLeadSlash u
        rw [hdata]
        rfl
      simp [composeURL, h3, h4]

/-- A config with the spec's example baseURL and relative url. -/
def exCfgC4 : RequestConfig Nat :=
  { baseURL := some "https://example.com", url := some "/api" }

/-- Claim C4 witness: the spec's three base-URL joining examples, plus the
general theorem instantiated at the first of them. -/
theorem claim_C4_witness :
    ((applyBase exCfgC4).url = some (composeURL "https://example.com" "/api") ∧
      (hasDoubleSlash "/api" = true → composeURL "https://example.com" "/api" = "/api") ∧
      (hasDoubleSlash "/api" = false →
        composeURL "https://example.com" "/api"
          = "https://example.com" ++ "/" ++ dropLeadSlash "/api" ∧
        composeURL "https://example.com" (dropLeadSlash "/api")
          = "https://example.com" ++ "/" ++ dropLeadSlash "/api" ∧
        composeURL "https://example.com" ("/" ++ dropLeadSlash "/api")
          = "https://example.com" ++ "/" ++ dropLeadSlash "/api")) ∧
    composeURL "https://example.com" "/api" = "https://example.com/api" ∧
    composeURL "https://example.com" "api" = "https://example.com/api" ∧
    composeURL "https://example.com" "https://other.com/x" = "https://other.com/x" :=
  ⟨claim_C4 exCfgC4 "https://example.com" "/api" rfl (by decide) rfl,
    by decide, by decide, by decide⟩

/-- Looking up the key just written by `setKey` yields the written value. -/
theorem lookup_setKey (l : List (String × String)) (k v : String) :
    List.lookup k (setKey l k v) = some v := by
  induction l with
  | nil => simp [setKey, List.lookup]
  | cons p t ih =>
    obtain ⟨k', v'⟩ := p
    by_cases hk : k' = k
    · simp [setKey, hk, List.lookup]
    · have hkk : (k == k') = false := beq_eq_false_iff_ne.mpr (Ne.symm hk)
      simp [setKey, hk, List.lookup, ih, hkk]

/-- A call whose caller set a custom content-type and whose body is a
structured object. -/
def exInputC6 : CallInput Nat :=
  { defaults := {}
    reqHandlers := []
    respHandlers := []
    arg := Sum.inl "/x"
    config := some { headers := some [("content-type", "text/plain")] }
    method := some Method.post
    body := some (JsBody.obj [("a", "b")])
    transport := fun _ => { status := 200, headers := [], jsonBody := Except.ok 0, textBody := Except.ok 0 } }

/-- Claim C6 counterexample: the caller supplied the custom content-type
`text/plain` on the descriptor's headers and a structured body; the headers
actually sent carry `application/json` — the serialization step overrode the
caller-supplied content-type. -/
theorem claim_C6_counterexample :
    List.lookup "content-type" (((finalConfig exInputC6).headers).getD [])
      = some "text/plain" ∧
    builtHeaders exInputC6 = [("content-type", "application/json")] ∧
    List.lookup "content-type" (builtHeaders exInputC6) = some "application/json" := by
  refine ⟨rfl, rfl, rfl⟩

/-- Claim C6 (amended): a structured body is serialized to JSON text and the
content-type header set to `application/json`; this serialization-set
content-type is written over the descriptor's headers last, so it overrides a
caller-supplied `content-type` entry rather than yielding to it. -/
theorem claim_C6_amended {D : Type} (i : CallInput D) (o : List (String × String))
    (hb : i.body = some (JsBody.obj o)) :
    sentBody i = some (JsBody.str (jsonStringify o)) ∧
    builtHeaders i
      = setKey (((finalConfig i).headers).getD []) "content-type" "application/json" ∧
    List.lookup "content-type" (builtHeaders i) = some "application/json" := by
  have h2 : builtHeaders i
      = setKey (((finalConfig i).headers).getD []) "content-type" "application/json" := by
    simp [builtHeaders, serializeBody, hb, spreadMerge]
  refine ⟨by simp [sentBody, serializeBody, hb], h2, ?_⟩
  rw [h2, lookup_setKey]

/-- Claim C6 witness at the concrete custom-content-type call. -/
theorem claim_C6_witness :
    sentBody exInputC6 = some (JsBody.str (jsonStringify [("a", "b")])) ∧
    builtHeaders exInputC6
      = setKey (((finalConfig exInputC6).headers).getD []) "content-type" "application/json" ∧
    List.lookup "content-type" (builtHeaders exInputC6) = some "application/json" :=
  claim_C6_amended exInputC6 [("a", "b")] rfl

/-- Split a character list on a separator character (specification
vocabulary used to state query preservation). -/
def splitOnChar (sep : Char) : List Char → List (List Char)
  | [] => [[]]
  | c :: rest =>
    let r := splitOnChar sep rest
    if c = sep then [] :: r
    else
      match r with
      | h :: t => (c :: h) :: t
      | [] => [[c]]

/-- The query part of a url: what follows the first `?`. -/
def queryPart (s : String) : List Char :=
  match splitOnChar '?' s.data with
  | _ :: q :: _ => q
  | _ => []

/-- Decode a url's query string into key/value pairs. -/
def parseQuery (s : String) : List (String × String) :=
  (splitOnChar '&' (queryPart s)).map (fun kv =>
    match splitOnChar '=' kv with
    | k :: v :: _ => (String.mk k, String.mk v)
    | _ => (String.mk kv, ""))

/-- Claim C8: with params present the final url is the composed url with the
serialized params appended, joined with `&` when the url already contains a
`?` and with `?` otherwise; query parameters already in the url are preserved
alongside the appended params, as on the spec's example. -/
theorem claim_C8 {D : Type} (c : RequestConfig D) (u : String)
    (ps : List (String × String))
    (hu : c.url = some u) (hp : c.params = some ps) :
    (applyParams c).url = some (appendQuery u ps) ∧
    (u.data.contains '?' = true → appendQuery u ps = u ++ "&" ++ encodeParams ps) ∧
    (u.data.contains '?' = false → appendQuery u ps = u ++ "?" ++ encodeParams ps) ∧
    appendQuery "/api?id=1" [("name", "z")] = "/api?id=1&name=z" ∧
    List.lookup "id" (parseQuery (appendQuery "/api?id=1" [("name", "z")])) = some "1" ∧
    List.lookup "name" (parseQuery (appendQuery "/api?id=1" [("name", "z")])) = some "z" := by
  refine ⟨?_, ?_, ?_, by decide, by decide, by decide⟩
  · simp [applyParams, hp, hu]
  · intro h
    simp at h
    simp [appendQuery, h]
  · intro h
    simp at h
    simp [appendQuery, h]

/-- A config carrying the spec's example url and params. -/
def exCfgC8 : RequestConfig Nat :=
  { url := some "/api?id=1", params := some [("name", "z")] }

/-- Claim C8 witness at the spec's example url and params. -/
theorem claim_C8_witness :
    ((applyParams exCfgC8).url = some (appendQuery "/api?id=1" [("name", "z")]) ∧
      ("/api?id=1".data.contains '?' = true →
        appendQuery "/api?id=1" [("name", "z")]
          = "/api?id=1" ++ "&" ++ encodeParams [("name", "z")]) ∧
      ("/api?id=1".data.contains '?' = false →
        appendQuery "/api?id=1" [("name", "z")]
          = "/api?id=1" ++ "?" ++ encodeParams [("name", "z")]) ∧
      appendQuery "/api?id=1" [("name", "z")] = "/api?id=1&name=z" ∧
      List.lookup "id" (parseQuery (appendQuery "/api?id=1" [("name", "z")])) = some "1" ∧
      List.lookup "name" (parseQuery (appendQuery "/api?id=1" [("name", "z")])) = some "z") :=
  claim_C8 exCfgC8 "/api?id=1" [("name", "z")] rfl rfl

/-- Claim C9: on a classified-success response whose body read throws, the
failure is swallowed — the envelope's data stays absent and (with no schema
demanding validation) the call still resolves successfully. -/
theorem claim_C9 {D : Type} (i : CallInput D)
    (hurl : urlFalsy (resolvedConfig i).url = false)
    (hok : classified i = true)
    (hread : readBody (transportRes i) (effRespType i) = Except.error ())
    (hns : (finalConfig i).schema = none) :
    (preRespEnv i).data = none ∧
    (runCall i).outcome = Except.ok (interceptedEnv i) ∧
    (i.respHandlers = [] →
      (runCall i).outcome = Except.ok (preRespEnv i) ∧ (interceptedEnv i).data = none) := by
  have h1 : (preRespEnv i).data = none := by
    simp [preRespEnv, hread, Except.toOption]
  have h2 : (runCall i).outcome = Except.ok (interceptedEnv i) := by
    cases hrt : effRespType i <;>
      simp [runCall, outcomeOf, hurl, hok, schemaStage, hrt, hns]
  refine ⟨h1, h2, ?_⟩
  intro hre
  have h3 : interceptedEnv i = preRespEnv i := by
    simp [interceptedEnv, hre, applyRespHandlers, dispatchHandlers]
  refine ⟨by rw [← h3]; exact h2, by rw [h3]; exact h1⟩

/-- A 204-status call whose json body read throws (empty body). -/
def exInputC9 : CallInput Nat :=
  { defaults := {}
    reqHandlers := []
    respHandlers := []
    arg := Sum.inl "/api"
    config := none
    method := some Method.get
    body := none
    transport := fun _ => { status := 204, headers := [], jsonBody := Except.error (), textBody := Except.ok 0 } }

/-- Claim C9 witness: a 204 response with a throwing json reader resolves
successfully with absent data. -/
theorem claim_C9_witness :
    (preRespEnv exInputC9).data = none ∧
    (runCall exInputC9).outcome = Except.ok (interceptedEnv exInputC9) ∧
    ((runCall exInputC9).outcome = Except.ok (preRespEnv exInputC9) ∧
      (interceptedEnv exInputC9).data = none) :=
  ⟨(claim_C9 exInputC9 rfl rfl rfl rfl).1,
    (claim_C9 exInputC9 rfl rfl rfl rfl).2.1,
    (claim_C9 exInputC9 rfl rfl rfl rfl).2.2 rfl⟩

/-- A call passing a url string plus a config object whose url differs. -/
def exInputC10 : CallInput Nat :=
  { defaults := {}
    reqHandlers := []
    respHandlers := []
    arg := Sum.inl "/w"
    config := some { url := some "/q" }
    method := none
    body := none
    transport := fun _ => { status := 200, headers := [], jsonBody := Except.ok 0, textBody := Except.ok 0 } }

/-- Claim C10 witness at a concrete call: the caller's config object comes
back with its url overwritten. -/
theorem claim_C10_witness :
    (runCall exInputC10).callerConfigAfter
      = some { ({ url := some "/q" } : RequestConfig Nat) with url := some "/w" } ∧
    (runCall exInputC10).callerConfigAfter ≠ exInputC10.config :=
  claim_C10 exInputC10 "/w" { url := some "/q" } rfl rfl (by decide)

end Zodaxios
